import Mathlib

/-!
Verification development for the AIMLAB-VR-DataStreamer repository.

The definitions below are shallow embeddings of the C++ sources:

* `AimlabVR.*` — `src/DataPacket.cpp` (binary and JSON packet codec) and
  `src/VRDataStreamer.cpp` (streaming loop, sequence numbering, statistics).
* `UdpChat.*` — `minimal_test/udp_chat_node2.cpp` (discovery filter and the
  two-latch handshake loop).
* `AIMLAB.*` — `aimlab_network_cpp.cpp` (`NetworkManager`: peer registry,
  heartbeat sweep, discovery and handshake message handlers).
* `AimlabDS.*` — `Old/minimal_test/C-Sharp-Package/aimlab_vr_datastreamer.cpp`
  (`processCommand` dispatch and its file-sink state).

Machine integers are modelled as `Nat` with explicit `% 2^w` where the C++
performs a narrowing cast; `float` fields are modelled by their 32-bit
IEEE-754 bit patterns (the codec moves them with `memcpy`, so serialization
is bit-exact and never interprets them numerically).  Byte buffers are
`List Nat`; an out-of-range `std::vector::operator[]` access in the C++ is
modelled by `List.getD _ _ 0` together with an explicit out-of-bounds flag
computed by the parser loop.
-/

namespace AimlabVR

/-! ### Binary codec — `DataPacket.cpp`

`writeUint16/32/64` are the `writeUint16/32/64` lambdas of
`DataPacket::serializeBinary` (big-endian, `(val >> k) & 0xFF` written here
as `val / 2^k % 256`).  `byteAt`/`readUint32At`/`readUint64At` are the
`data[offset]` accesses and the `readUint32`/`readUint64` lambdas of
`DataPacket::deserializeBinary`; the C++ recombines bytes with `<<` and `|`,
which on byte values equals the sum-of-products form used here. -/

def writeUint16 (v : Nat) : List Nat :=
  [v / 256 % 256, v % 256]

def writeUint32 (v : Nat) : List Nat :=
  [v / 16777216 % 256, v / 65536 % 256, v / 256 % 256, v % 256]

def writeUint64 (v : Nat) : List Nat :=
  [v / 72057594037927936 % 256, v / 281474976710656 % 256,
   v / 1099511627776 % 256, v / 4294967296 % 256,
   v / 16777216 % 256, v / 65536 % 256, v / 256 % 256, v % 256]

def byteAt (data : List Nat) (i : Nat) : Nat :=
  data.getD i 0

def readUint32At (data : List Nat) (off : Nat) : Nat :=
  byteAt data off * 16777216 + byteAt data (off + 1) * 65536 +
    byteAt data (off + 2) * 256 + byteAt data (off + 3)

def readUint64At (data : List Nat) (off : Nat) : Nat :=
  byteAt data off * 72057594037927936 + byteAt data (off + 1) * 281474976710656 +
    byteAt data (off + 2) * 1099511627776 + byteAt data (off + 3) * 4294967296 +
    byteAt data (off + 4) * 16777216 + byteAt data (off + 5) * 65536 +
    byteAt data (off + 6) * 256 + byteAt data (off + 7)

/-- DeviceData (`Types.h`), restricted to the fields the binary codec moves:
device id, device type and tracking state (their enum byte values),
connected flag, pose position/rotation floats (32-bit patterns), pose
timestamp, and the trigger/grip button booleans and analog values.  The
remaining `ButtonState` fields and `deviceName` never reach the wire. -/
structure DeviceData where
  deviceId : Nat
  deviceType : Nat
  trackingState : Nat
  isConnected : Bool
  posX : Nat
  posY : Nat
  posZ : Nat
  rotW : Nat
  rotX : Nat
  rotY : Nat
  rotZ : Nat
  poseTimestamp : Nat
  trigger : Bool
  grip : Bool
  triggerValue : Nat
  gripValue : Nat
  deriving DecidableEq, Repr

/-- DataPacket payload state: `m_sequenceNumber`, `m_timestamp`,
`m_devices` of `DataPacket.h` (`m_format` is passed separately to
`deserialize`, mirroring the dispatch on `m_format`). -/
structure DataPacket where
  sequenceNumber : Nat
  timestamp : Nat
  devices : List DeviceData
  deriving DecidableEq, Repr

/-- Per-device payload of `DataPacket::serializeBinary` (53 bytes):
id, type byte, tracking byte, connected byte, 3 position floats,
4 rotation floats (w,x,y,z), pose timestamp, trigger/grip bytes,
trigger/grip analog floats.  The `static_cast<uint8_t>` on the two enums
is the `% 256`. -/
def serializeDevice (d : DeviceData) : List Nat :=
  writeUint32 d.deviceId ++
  [d.deviceType % 256, d.trackingState % 256, if d.isConnected then 1 else 0] ++
  writeUint32 d.posX ++ writeUint32 d.posY ++ writeUint32 d.posZ ++
  writeUint32 d.rotW ++ writeUint32 d.rotX ++ writeUint32 d.rotY ++ writeUint32 d.rotZ ++
  writeUint64 d.poseTimestamp ++
  [if d.trigger then 1 else 0, if d.grip then 1 else 0] ++
  writeUint32 d.triggerValue ++ writeUint32 d.gripValue

/-- DataPacket::serializeBinary: 22-byte header
`[magic 0x41494D4C][version 1][seq][timestamp][deviceCount]` followed by the
flat device records.  `deviceCount` is
`static_cast<uint32_t>(m_devices.size())`, hence the `% 4294967296`. -/
def serializeBinary (p : DataPacket) : List Nat :=
  writeUint32 0x41494D4C ++ writeUint16 1 ++
  writeUint32 p.sequenceNumber ++ writeUint64 p.timestamp ++
  writeUint32 (p.devices.length % 4294967296) ++
  (p.devices.map serializeDevice).flatten

/-- One device record read of `DataPacket::deserializeBinary`, starting at
byte `off` (53 bytes, same layout as `serializeDevice`).  Accesses past the
end of the buffer yield 0 here; the parser loop reports them separately. -/
def deserializeDeviceAt (data : List Nat) (off : Nat) : DeviceData where
  deviceId := readUint32At data off
  deviceType := byteAt data (off + 4)
  trackingState := byteAt data (off + 5)
  isConnected := byteAt data (off + 6) != 0
  posX := readUint32At data (off + 7)
  posY := readUint32At data (off + 11)
  posZ := readUint32At data (off + 15)
  rotW := readUint32At data (off + 19)
  rotX := readUint32At data (off + 23)
  rotY := readUint32At data (off + 27)
  rotZ := readUint32At data (off + 31)
  poseTimestamp := readUint64At data (off + 35)
  trigger := byteAt data (off + 43) != 0
  grip := byteAt data (off + 44) != 0
  triggerValue := readUint32At data (off + 45)
  gripValue := readUint32At data (off + 49)

/-- The device loop of `DataPacket::deserializeBinary`:
`for (i = 0; i < deviceCount && offset < data.size(); ++i)` reading 53
bytes per iteration.  The second component records whether some iteration
indexed past `data.size()` (the iteration runs whenever `offset <
data.size()`, but reads `offset .. offset+52`, so it overruns exactly when
`data.size() < offset + 53`). -/
def parseDevicesFrom (data : List Nat) : Nat → Nat → List DeviceData × Bool
  | _, 0 => ([], false)
  | off, n + 1 =>
    if off < data.length then
      let d := deserializeDeviceAt data off
      let rest := parseDevicesFrom data (off + 53) n
      (d :: rest.1, (decide (data.length < off + 53) || rest.2))
    else
      ([], false)

/-- DataPacket::deserializeBinary.  Returns `none` exactly when the C++
returns `false` (buffer shorter than the 22-byte header, or magic number
mismatch); on success returns the parsed header fields and devices (the C++
overwrites the members and returns `true`).  The `Bool` is the
out-of-bounds flag of `parseDevicesFrom`. -/
def deserializeBinary (data : List Nat) : Option DataPacket × Bool :=
  if data.length < 22 then (none, false)
  else if readUint32At data 0 ≠ 0x41494D4C then (none, false)
  else
    let seq := readUint32At data 6
    let ts := readUint64At data 10
    let deviceCount := readUint32At data 18
    let parsed := parseDevicesFrom data 22 deviceCount
    (some ⟨seq, ts, parsed.1⟩, parsed.2)

/-- Field ranges guaranteed by the C++ types of `DeviceData` (`uint32_t`
ids and float bit patterns, byte-sized enum values after the
`static_cast<uint8_t>` on the wire, `uint64_t` pose timestamp). -/
def DeviceData.WF (d : DeviceData) : Prop :=
  d.deviceId < 4294967296 ∧ d.deviceType < 256 ∧ d.trackingState < 256 ∧
  d.posX < 4294967296 ∧ d.posY < 4294967296 ∧ d.posZ < 4294967296 ∧
  d.rotW < 4294967296 ∧ d.rotX < 4294967296 ∧ d.rotY < 4294967296 ∧
  d.rotZ < 4294967296 ∧ d.poseTimestamp < 18446744073709551616 ∧
  d.triggerValue < 4294967296 ∧ d.gripValue < 4294967296

instance (d : DeviceData) : Decidable d.WF := by
  unfold DeviceData.WF; infer_instance

/-- Packet ranges guaranteed by the C++ types (`uint32_t` sequence number,
`uint64_t` timestamp) together with the device-count bound under which the
`static_cast<uint32_t>(m_devices.size())` in the header is lossless. -/
def DataPacket.WF (p : DataPacket) : Prop :=
  p.sequenceNumber < 4294967296 ∧ p.timestamp < 18446744073709551616 ∧
  p.devices.length < 4294967296 ∧ ∀ d ∈ p.devices, d.WF

instance (p : DataPacket) : Decidable p.WF := by
  unfold DataPacket.WF; infer_instance

/-! ### JSON codec and format dispatch — `DataPacket.cpp` -/

/-- PacketFormat (`DataPacket.h`). -/
inductive PacketFormat where
  | Binary
  | JSON
  deriving DecidableEq

/-- Comma-joined list, modelling the `if (i > 0) oss << ","` loop shape of
`DataPacket::serializeJSON`. -/
def joinComma : List String → String
  | [] => ""
  | [s] => s
  | s :: rest => s ++ "," ++ joinComma rest

/-- One device object of `DataPacket::serializeJSON`.  `fpr` models the
`std::ostream` text rendering of a float, applied to the float's bit
pattern (the exact digits are irrelevant to every claim about this code). -/
def deviceJSONText (fpr : Nat → String) (d : DeviceData) : String :=
  "\x7b\"id\":" ++ Nat.repr d.deviceId ++
  ",\"type\":" ++ Nat.repr d.deviceType ++
  ",\"pos\":[" ++ fpr d.posX ++ "," ++ fpr d.posY ++ "," ++ fpr d.posZ ++ "]" ++
  ",\"rot\":[" ++ fpr d.rotW ++ "," ++ fpr d.rotX ++ "," ++ fpr d.rotY ++ "," ++
  fpr d.rotZ ++ "]\x7d"

/-- DataPacket::serializeJSON as the text it streams into `oss`. -/
def serializeJSONText (fpr : Nat → String) (p : DataPacket) : String :=
  "\x7b\"seq\":" ++ Nat.repr p.sequenceNumber ++
  ",\"ts\":" ++ Nat.repr p.timestamp ++
  ",\"devices\":[" ++ joinComma (p.devices.map (deviceJSONText fpr)) ++ "]\x7d"

/-- Byte image of a string, modelling
`std::vector<uint8_t>(jsonStr.begin(), jsonStr.end())` (the JSON text the
serializer produces is plain ASCII, so code points and bytes coincide). -/
def strBytes (s : String) : List Nat :=
  s.data.map Char.toNat

/-- DataPacket::serializeJSON. -/
def serializeJSON (fpr : Nat → String) (p : DataPacket) : List Nat :=
  strBytes (serializeJSONText fpr p)

/-- DataPacket::deserializeJSON: clears `m_devices`, logs a warning, and
returns `false` unconditionally ("JSON deserialization not fully
implemented"). -/
def deserializeJSON (p : DataPacket) (_data : List Nat) : Bool × DataPacket :=
  (false, { p with devices := [] })

/-- DataPacket::deserialize: rejects an empty buffer without touching the
members, then dispatches on `m_format`.  On a binary success the members
are overwritten with the parsed packet; on failure they are untouched. -/
def deserialize (fmt : PacketFormat) (p : DataPacket) (data : List Nat) :
    Bool × DataPacket :=
  if data.isEmpty then (false, p)
  else
    match fmt with
    | .Binary =>
      match (deserializeBinary data).1 with
      | some q => (true, q)
      | none => (false, p)
    | .JSON => deserializeJSON p data

/-! ### Streaming loop — `VRDataStreamer.cpp`

`StreamerState` is the `VRDataStreamer::Impl` state the streaming path
touches.  Presence of the `vrDevice`/`networkManager` objects and of the
two callbacks is modelled by booleans; the outcomes of the external calls
`vrDevice->update()` and `networkManager->send(packet)` on one tick arrive
as a `TickInput` oracle. -/

structure StreamerState where
  isStreaming : Bool
  shouldStop : Bool
  totalPacketsSent : Nat
  sequenceNumber : Nat
  hasVrDevice : Bool
  hasNetworkManager : Bool
  networkConnected : Bool
  errorCallbackSet : Bool
  dataSentCallbackSet : Bool
  deriving DecidableEq, Repr

/-- Outcome oracle for one `sendFrame` tick: whether `vrDevice->update()`
succeeds, whether `networkManager->send` succeeds, and the capture-time
microsecond timestamp the tick observes. -/
structure TickInput where
  updateOk : Bool
  sendOk : Bool
  timestamp : Nat
  deriving DecidableEq, Repr

/-- Observable side effects of one `sendFrame` call: the sequence number
the tick assigned to its packet (if it got that far), and whether the
error / data-sent callbacks were invoked. -/
structure FrameEvents where
  assignedSeq : Option Nat
  errorCallbackInvoked : Bool
  sentCallbackInvoked : Bool
  deriving DecidableEq, Repr

/-- VRDataStreamer::startStreaming: refuses when already streaming, when
the device or network manager is missing, or when not connected; otherwise
resets `totalPacketsSent` and `sequenceNumber` to 0, clears `shouldStop`,
sets `isStreaming`, and launches the streaming thread. -/
def startStreaming (st : StreamerState) : Bool × StreamerState :=
  if st.isStreaming then (false, st)
  else if !(st.hasVrDevice && st.hasNetworkManager) then (false, st)
  else if !st.networkConnected then (false, st)
  else (true,
    { st with isStreaming := true, shouldStop := false,
              totalPacketsSent := 0, sequenceNumber := 0 })

/-- VRDataStreamer::sendFrame.  Mirrors the source order: device/manager
presence check, `update()`, sequence assignment by post-increment (a
`uint32_t`, so the stored successor wraps at `2^32`), then the send; on a
send failure the error callback fires (when set), `totalPacketsSent` stays
put and the data-sent callback does not fire; on success the counter is
incremented and the data-sent callback fires (when set). -/
def sendFrame (st : StreamerState) (t : TickInput) :
    Bool × StreamerState × FrameEvents :=
  if !(st.hasVrDevice && st.hasNetworkManager) then
    (false, st, ⟨none, false, false⟩)
  else if !t.updateOk then
    (false, st, ⟨none, false, false⟩)
  else
    let seq := st.sequenceNumber
    let st1 := { st with sequenceNumber := (st.sequenceNumber + 1) % 4294967296 }
    if !t.sendOk then
      (false, st1, ⟨some seq, st.errorCallbackSet, false⟩)
    else
      (true, { st1 with totalPacketsSent := st1.totalPacketsSent + 1 },
       ⟨some seq, false, st.dataSentCallbackSet⟩)

/-- Iterated `sendFrame` over a list of tick oracles, collecting the
sequence numbers assigned to the frames in order. -/
def runFrames (st : StreamerState) : List TickInput → StreamerState × List Nat
  | [] => (st, [])
  | t :: ts =>
    let r := sendFrame st t
    let rest := runFrames r.2.1 ts
    (rest.1, r.2.2.assignedSeq.toList ++ rest.2)

/-- One loop iteration of `VRDataStreamer::streamingThreadFunc` at the
state level: the loop guard reads `shouldStop`; the body runs `sendFrame`
and, whatever its result (failure only adds a 100 ms sleep and
`continue`), control returns to the guard.  The `Bool` says whether the
loop will run another iteration. -/
def streamingThreadStep (st : StreamerState) (t : TickInput) :
    StreamerState × Bool :=
  if st.shouldStop then (st, false)
  else
    let r := sendFrame st t
    (r.2.1, !r.2.1.shouldStop)

/-- Frame period in microseconds:
`std::chrono::microseconds(1000000 / config.updateRate)`. -/
def framePeriodMicros (updateRate : Nat) : Nat :=
  1000000 / updateRate

/-- Deadline update of `streamingThreadFunc` after a successful send
(`nextFrameTime += frameDuration; if (nextFrameTime > now)
sleep_until(nextFrameTime); else nextFrameTime = now;`).  Input: current
deadline and the clock value `now` observed after the send; output: the
new deadline and the clock value at which the next iteration starts
(`sleep_until` is idealised as waking exactly at the deadline). -/
def streamTick (nextFrameTime now period : Nat) : Nat × Nat :=
  let nft := nextFrameTime + period
  if now < nft then (nft, nft) else (now, now)

/-- Iterated `streamTick`: entry `δ` of the list is the time the tick's
frame processing takes, so the post-send clock of each tick is its start
clock plus `δ`.  Result: deadline and clock at the start of the next tick. -/
def streamRun (period : Nat) : Nat → Nat → List Nat → Nat × Nat
  | nextFrameTime, now, [] => (nextFrameTime, now)
  | nextFrameTime, now, δ :: δs =>
    let r := streamTick nextFrameTime (now + δ) period
    streamRun period r.1 r.2 δs

end AimlabVR

namespace UdpChat

/-! ### Discovery filter and handshake — `minimal_test/udp_chat_node2.cpp` -/

/-- Split a character list at every occurrence of the separator, the shape
`std::getline(iss, field, ':')` consumes a message in. -/
def splitCh (c : Char) : List Char → List (List Char)
  | [] => [[]]
  | a :: as =>
    if a = c then [] :: splitCh c as
    else
      match splitCh c as with
      | [] => [[a]]
      | t :: ts => (a :: t) :: ts

/-- Field `i` of a colon-separated message; a missing field reads as `""`,
matching the untouched empty `std::string` when `getline` fails. -/
def msgField (s : String) (i : Nat) : String :=
  ((splitCh ':' s.data).map (fun l => String.mk l)).getD i ""

/-- Digit-string value, modelling `std::stoi` on the numeric fields this
protocol sends (`std::stoi` throws on non-numeric input; no theorem below
evaluates this model off a digit string). -/
def stoiNat (s : String) : Nat :=
  s.data.foldl (fun n c => n * 10 + (c.toNat - 48)) 0

/-- Prefix test, modelling `received.find(prefix) == 0`. -/
def strStartsWith (s p : String) : Bool :=
  p.data.isPrefixOf s.data

def NODE_ID : String := "NODE2"

def PEER_ID : String := "NODE1"

def CHAT_PORT : Nat := 50003

/-- Discovery-side state of node 2: the `peer_discovered` flag and the
`peer_address`/`peer_port` globals. -/
structure DiscState where
  peer_discovered : Bool
  peer_address : String
  peer_port : Nat
  deriving DecidableEq, Repr

/-- Message-processing branch of one `discoveryThread` loop iteration of
`udp_chat_node2.cpp` (lines 193–232): parse `type:senderId:port`; a
`DISCOVER` from the expected peer role records the peer and answers with
`ACK:NODE2:50003`; an `ACK` from the expected peer records the peer; any
other sender id — in particular this node's own looped-back broadcasts,
whose sender id is `NODE2` — changes nothing and sends nothing. -/
def discStep (st : DiscState) (senderIp : String) (received : String) :
    DiscState × List String :=
  let msg_type := msgField received 0
  let sender_id := msgField received 1
  let sender_port_str := msgField received 2
  if msg_type = "DISCOVER" ∧ sender_id = PEER_ID then
    (⟨true, senderIp, stoiNat sender_port_str⟩,
     ["ACK:" ++ NODE_ID ++ ":" ++ Nat.repr CHAT_PORT])
  else if msg_type = "ACK" ∧ sender_id = PEER_ID then
    (⟨true, senderIp, stoiNat sender_port_str⟩, [])
  else
    (st, [])

def handshake_msg : String := "HANDSHAKE:" ++ NODE_ID

def ready_msg : String := "READY:" ++ NODE_ID

/-- One iteration of the `performHandshake` retry loop: send the handshake
request while the peer has not acknowledged it (`!handshake_sent`); then
one non-blocking receive (`inp = none` when no datagram is pending) — a
`HANDSHAKE*` datagram latches `handshake_received` and is answered with
`READY:NODE2`, a `READY*` datagram latches `handshake_sent`.  Returns the
two latches and the datagrams sent this iteration. -/
def hsStep (sent received : Bool) (inp : Option String) :
    Bool × Bool × List String :=
  let sends0 := if sent then [] else [handshake_msg]
  match inp with
  | none => (sent, received, sends0)
  | some s =>
    if strStartsWith s "HANDSHAKE" then (sent, true, sends0 ++ [ready_msg])
    else if strStartsWith s "READY" then (true, received, sends0)
    else (sent, received, sends0)

/-- The `performHandshake` loop
(`while (attempts < 10 && (!handshake_sent || !handshake_received))`),
with the remaining attempt budget as fuel and the per-iteration inbound
datagrams as a list.  Returns the final latches and everything sent. -/
def hsLoop : Nat → Bool → Bool → List (Option String) → Bool × Bool × List String
  | 0, sent, received, _ => (sent, received, [])
  | fuel + 1, sent, received, inputs =>
    if sent && received then (sent, received, [])
    else
      let r := hsStep sent received (inputs.headD none)
      let rest := hsLoop fuel r.1 r.2.1 inputs.tail
      (rest.1, rest.2.1, r.2.2 ++ rest.2.2)

/-- performHandshake: 10 attempts starting from both latches clear;
succeeds (`handshake_sent && handshake_received`) only when both latches
are set, and otherwise reports failure after the budget is exhausted. -/
def performHandshake (inputs : List (Option String)) : Bool × List String :=
  let r := hsLoop 10 false false inputs
  (r.1 && r.2.1, r.2.2)

/-- An inbound datagram that latches `handshake_received` (a peer-initiated
handshake request). -/
def isHandshakeMsg : Option String → Bool
  | none => false
  | some s => strStartsWith s "HANDSHAKE"

/-- An inbound datagram that latches `handshake_sent` (the peer's READY
acknowledgment of our request). -/
def isReadyMsg : Option String → Bool
  | none => false
  | some s => !strStartsWith s "HANDSHAKE" && strStartsWith s "READY"

end UdpChat

namespace AIMLAB

/-! ### NetworkManager — `aimlab_network_cpp.cpp`

Message types are modelled by their underlying integer values (the code
moves them through `static_cast<int>` / `static_cast<MessageType>`).
`std::map<std::string, PeerInfo>` is modelled as an association list keyed
by `peer_id`; `std::map` keeps one entry per key, which the handlers below
preserve.  `std::chrono::steady_clock` instants are milliseconds as `Nat`. -/

def DISCOVER : Nat := 0
def ACKNOWLEDGE : Nat := 1
def HANDSHAKE_START : Nat := 2
def HANDSHAKE_ACK : Nat := 3
def HANDSHAKE_COMPLETE : Nat := 4
def DATA : Nat := 5
def HEARTBEAT : Nat := 6
def DISCONNECT : Nat := 7

def DISCOVERY_PORT : Nat := 45000
def DEFAULT_DATA_PORT : Nat := 45001
def HEARTBEAT_INTERVAL_MS : Nat := 5000
def CONNECTION_TIMEOUT_MS : Nat := 15000
def PROTOCOL_VERSION : String := "1.0"
def APP_IDENTIFIER : String := "AIMLAB_VR"

/-- Message (type, payload, and the sender/target address fields). -/
structure Message where
  type : Nat
  payload : String
  sender_ip : String
  sender_port : Nat
  deriving DecidableEq, Repr

/-- Message::serialize: `"<int(type)>|<payload>"`. -/
def Message.serialize (m : Message) : String :=
  Nat.repr m.type ++ "|" ++ m.payload

/-- Split a character list at the first occurrence of the separator
(`std::string::find` + the two `substr` calls). -/
def findSplit (c : Char) : List Char → Option (List Char × List Char)
  | [] => none
  | a :: as =>
    if a = c then some ([], as)
    else (findSplit c as).map (fun p => (a :: p.1, p.2))

/-- Message::deserialize: split at the first `'|'`; with no delimiter the
default-constructed message (type `DATA`, empty payload) is returned. -/
def Message.deserialize (data : String) : Message :=
  match findSplit '|' data.data with
  | some p => ⟨UdpChat.stoiNat (String.mk p.1), String.mk p.2, "", 0⟩
  | none => ⟨DATA, "", "", 0⟩

/-- PeerInfo: address, port, `last_heartbeat` instant, connected flag. -/
structure PeerInfo where
  ip_address : String
  port : Nat
  last_heartbeat : Nat
  is_connected : Bool
  deriving DecidableEq, Repr

/-- PeerInfo::is_timeout at clock value `now`:
`elapsed > CONNECTION_TIMEOUT_MS`. -/
def PeerInfo.isTimeout (now : Nat) (p : PeerInfo) : Bool :=
  decide (CONNECTION_TIMEOUT_MS < now - p.last_heartbeat)

/-- NetworkManager state touched by the modelled handlers: the peer map
and the two message queues. -/
structure NMState where
  peers : List (String × PeerInfo)
  incoming_messages : List Message
  outgoing_messages : List Message
  deriving DecidableEq, Repr

/-- Key of a peer in the map: `sender_ip + ":" + std::to_string(port)`. -/
def peerId (ip : String) (port : Nat) : String :=
  ip ++ ":" ++ Nat.repr port

/-- The `peers[peer_id].update_heartbeat()` performed for a known sender at
the top of `handle_incoming_message`. -/
def update_heartbeat_in (now : Nat) (peers : List (String × PeerInfo))
    (id : String) : List (String × PeerInfo) :=
  peers.map (fun e => if e.1 = id then (e.1, { e.2 with last_heartbeat := now }) else e)

/-- NetworkManager::mark_peer_connected: for a known peer, set
`is_connected` and refresh `last_heartbeat`. -/
def mark_peer_connected (now : Nat) (st : NMState) (ip : String) (port : Nat) :
    NMState :=
  let id := peerId ip port
  if (st.peers.lookup id).isSome then
    { st with peers := st.peers.map (fun e =>
        if e.1 = id then
          (e.1, { e.2 with is_connected := true, last_heartbeat := now })
        else e) }
  else st

/-- NetworkManager::handle_handshake_start: queue a `HANDSHAKE_ACK` back to
the sender (no connection state change). -/
def handle_handshake_start (st : NMState) (msg : Message) : NMState :=
  { st with outgoing_messages := st.outgoing_messages ++
      [⟨HANDSHAKE_ACK, PROTOCOL_VERSION, msg.sender_ip, msg.sender_port⟩] }

/-- NetworkManager::handle_handshake_ack: queue a `HANDSHAKE_COMPLETE` to
the sender and mark the peer connected. -/
def handle_handshake_ack (now : Nat) (st : NMState) (msg : Message) : NMState :=
  mark_peer_connected now
    { st with outgoing_messages := st.outgoing_messages ++
        [⟨HANDSHAKE_COMPLETE, "", msg.sender_ip, msg.sender_port⟩] }
    msg.sender_ip msg.sender_port

/-- NetworkManager::handle_handshake_complete: mark the peer connected. -/
def handle_handshake_complete (now : Nat) (st : NMState) (msg : Message) :
    NMState :=
  mark_peer_connected now st msg.sender_ip msg.sender_port

/-- NetworkManager::handle_disconnect: erase the sender's peer record. -/
def handle_disconnect (st : NMState) (msg : Message) : NMState :=
  { st with peers := st.peers.filter (fun e =>
      e.1 ≠ peerId msg.sender_ip msg.sender_port) }

/-- The update-peer-heartbeat block at the top of
`NetworkManager::handle_incoming_message`: a known sender's
`last_heartbeat` is refreshed before any dispatch. -/
def refresh_known_sender (now : Nat) (st : NMState) (msg : Message) : NMState :=
  let id := peerId msg.sender_ip msg.sender_port
  if (st.peers.lookup id).isSome then
    { st with peers := update_heartbeat_in now st.peers id }
  else st

/-- NetworkManager::handle_incoming_message: refresh `last_heartbeat` of a
known sender, then dispatch on the message type (`DATA` is queued for the
application — the optional `message_handler` callback adds no state
change; `HEARTBEAT` needs nothing beyond the refresh; unknown types fall
through the `default` arm). -/
def handle_incoming_message (now : Nat) (st : NMState) (msg : Message) :
    NMState :=
  let st1 := refresh_known_sender now st msg
  if msg.type = HANDSHAKE_START then handle_handshake_start st1 msg
  else if msg.type = HANDSHAKE_ACK then handle_handshake_ack now st1 msg
  else if msg.type = HANDSHAKE_COMPLETE then handle_handshake_complete now st1 msg
  else if msg.type = DATA then
    { st1 with incoming_messages := st1.incoming_messages ++ [msg] }
  else if msg.type = HEARTBEAT then st1
  else if msg.type = DISCONNECT then handle_disconnect st1 msg
  else st1

/-- One sweep of the peer map by `NetworkManager::heartbeat_worker`: a
connected peer past the timeout is marked disconnected ("Peer timeout");
a connected live peer is sent a `HEARTBEAT`; other entries are untouched.
Returns the updated map and the queued heartbeats. -/
def heartbeat_sweep (now : Nat) :
    List (String × PeerInfo) → List (String × PeerInfo) × List Message
  | [] => ([], [])
  | (id, p) :: rest =>
    let r := heartbeat_sweep now rest
    if p.is_connected then
      if p.isTimeout now then
        ((id, { p with is_connected := false }) :: r.1, r.2)
      else
        ((id, p) :: r.1, ⟨HEARTBEAT, "", p.ip_address, p.port⟩ :: r.2)
    else
      ((id, p) :: r.1, r.2)

/-- Suffix after the last occurrence of the separator
(`payload.substr(payload.find_last_of(':') + 1)`). -/
def afterLast (c : Char) (l : List Char) : List Char :=
  ((l.reverse.takeWhile (fun a => a ≠ c)).reverse)

/-- The discovery datagram `discovery_worker` broadcasts:
`Message(DISCOVER, APP_IDENTIFIER + ":" + to_string(local data port))`,
serialized. -/
def discovery_broadcast (local_data_port : Nat) : String :=
  Message.serialize ⟨DISCOVER, APP_IDENTIFIER ++ ":" ++ Nat.repr local_data_port, "", 0⟩

/-- NetworkManager::handle_discovery_message: deserialize; accept any
payload starting with `APP_IDENTIFIER` (this node's own broadcasts
included — there is no role id or nonce distinguishing them) that contains
a `':'`; for an unknown `sender_ip:port` create a `PeerInfo`, and when the
type is `DISCOVER` also send an `ACK` datagram on the discovery socket and
queue a `HANDSHAKE_START` (`initiate_handshake`).  Returns the new state
and the datagrams sent directly on the discovery socket. -/
def handle_discovery_message (now local_data_port : Nat) (st : NMState)
    (data : String) (sender_ip : String) : NMState × List String :=
  let msg := Message.deserialize data
  if UdpChat.strStartsWith msg.payload APP_IDENTIFIER then
    if msg.payload.data.contains ':' then
      let peer_port := UdpChat.stoiNat (String.mk (afterLast ':' msg.payload.data))
      let id := peerId sender_ip peer_port
      if st.peers.lookup id = none then
        let st1 := { st with peers := st.peers ++
            [(id, ⟨sender_ip, peer_port, now, false⟩)] }
        if msg.type = DISCOVER then
          ({ st1 with outgoing_messages := st1.outgoing_messages ++
              [⟨HANDSHAKE_START, PROTOCOL_VERSION, sender_ip, peer_port⟩] },
           [Message.serialize ⟨ACKNOWLEDGE,
              APP_IDENTIFIER ++ ":" ++ Nat.repr local_data_port, "", 0⟩])
        else (st1, [])
      else (st, [])
    else (st, [])
  else (st, [])

end AIMLAB

namespace AimlabDS

/-! ### Command dispatch —
`Old/minimal_test/C-Sharp-Package/aimlab_vr_datastreamer.cpp`

The file-sink globals (`file_open`, `current_filename`, `data_count`,
`file_count`, `running`) form `CmdState`.  Two oracles stand for the
external effects inside `openDataFile`: `genName` is the timestamped name
`generateFilename()` would produce, and `fsOk` is whether
`current_file.open` succeeds. -/

structure CmdState where
  file_open : Bool
  current_filename : String
  data_count : Nat
  file_count : Nat
  running : Bool
  deriving DecidableEq, Repr

/-- openDataFile: refuse when a file is already open; resolve the name
(auto-generated — which bumps `file_count` — when the argument is empty,
else under `aimlab_data/`); on a successful open set `file_open` and reset
`data_count`. -/
def openDataFile (genName : String) (fsOk : Bool) (st : CmdState)
    (filename : String) : Bool × CmdState :=
  if st.file_open then (false, st)
  else
    let st0 := if filename = "" then { st with file_count := st.file_count + 1 } else st
    let fname := if filename = "" then genName else "aimlab_data/" ++ filename
    if fsOk then
      (true, { st0 with current_filename := fname, file_open := true, data_count := 0 })
    else
      (false, { st0 with current_filename := fname })

/-- closeDataFile: no-op when no file is open; otherwise clear `file_open`
and `current_filename`. -/
def closeDataFile (st : CmdState) : CmdState :=
  if !st.file_open then st
  else { st with file_open := false, current_filename := "" }

/-- Sub-opcode of a command: the text before the first `':'`
(`std::getline(iss, cmd_type, ':')`). -/
def cmdOpcode (command : String) : String :=
  match AIMLAB.findSplit ':' command.data with
  | some p => String.mk p.1
  | none => command

/-- Argument of a command: the text after the first `':'` (the second
`getline`; empty when the command has no `':'`). -/
def cmdArg (command : String) : String :=
  match AIMLAB.findSplit ':' command.data with
  | some p => String.mk p.2
  | none => ""

/-- The `GET_STATUS` reply text. -/
def statusRunningReply (st : CmdState) : String :=
  "STATUS" ++ (":RUNNING:file_open=" ++ (if st.file_open then "true" else "false") ++
    ",filename=" ++ (if st.file_open then st.current_filename else "none") ++
    ",data_count=" ++ Nat.repr st.data_count ++
    ",files_created=" ++ Nat.repr st.file_count)

/-- processCommand: dispatch on the sub-opcode.  `OPEN_FILE`, `CLOSE_FILE`,
`GET_STATUS` and `SHUTDOWN` run their handlers and return a `STATUS:*`
reply; anything else returns `STATUS:UNKNOWN_COMMAND` (a reply is always
produced — `dataReceiveThread` sends whatever `processCommand` returns). -/
def processCommand (genName : String) (fsOk : Bool) (st : CmdState)
    (command : String) : String × CmdState :=
  let cmd_type := cmdOpcode command
  if cmd_type = "OPEN_FILE" then
    let r := openDataFile genName fsOk st (cmdArg command)
    if r.1 then (("STATUS" ++ ":FILE_OPENED:") ++ r.2.current_filename, r.2)
    else ("STATUS" ++ ":FILE_OPEN_FAILED", r.2)
  else if cmd_type = "CLOSE_FILE" then
    ("STATUS" ++ ":FILE_CLOSED", closeDataFile st)
  else if cmd_type = "GET_STATUS" then
    (statusRunningReply st, st)
  else if cmd_type = "SHUTDOWN" then
    let st1 := if st.file_open then closeDataFile st else st
    ("STATUS" ++ ":SHUTTING_DOWN", { st1 with running := false })
  else
    ("STATUS" ++ ":UNKNOWN_COMMAND", st)

end AimlabDS
namespace AimlabVR

/-! ### Codec lemmas -/

theorem byteAt_shift (pre ys : List Nat) (k : Nat) :
    byteAt (pre ++ ys) (pre.length + k) = byteAt ys k := by
  unfold byteAt
  rw [List.getD_append_right pre ys 0 (pre.length + k) (by omega)]
  congr 1
  omega

theorem byteAt_shift0 (pre ys : List Nat) :
    byteAt (pre ++ ys) pre.length = byteAt ys 0 := by
  have := byteAt_shift pre ys 0
  simpa using this

theorem deserializeDeviceAt_shift (pre ys : List Nat) :
    deserializeDeviceAt (pre ++ ys) pre.length = deserializeDeviceAt ys 0 := by
  simp only [deserializeDeviceAt, readUint32At, readUint64At, Nat.add_assoc,
    byteAt_shift, byteAt_shift0, Nat.zero_add]

theorem deserializeDeviceAt_serializeDevice (d : DeviceData) (rest : List Nat)
    (h : d.WF) : deserializeDeviceAt (serializeDevice d ++ rest) 0 = d := by
  obtain ⟨a1, a2, a3, a4, a5, a6, a7, a8, a9, a10, a11, a12, a13, a14, a15, a16⟩ := d
  simp only [DeviceData.WF] at h
  obtain ⟨h1, h2, h3, h4, h5, h6, h7, h8, h9, h10, h11, h12, h13⟩ := h
  simp only [deserializeDeviceAt, DeviceData.mk.injEq]
  simp only [readUint32At, readUint64At, byteAt, serializeDevice, writeUint32,
    writeUint64, List.cons_append, List.nil_append, List.getD_cons_zero,
    List.getD_cons_succ]
  refine ⟨by omega, by omega, by omega, ?_, by omega, by omega, by omega,
    by omega, by omega, by omega, by omega, by omega, ?_, ?_, by omega, by omega⟩
  · cases a4 <;> simp
  · cases a13 <;> simp
  · cases a14 <;> simp

theorem parseDevicesFrom_serialized (ds : List DeviceData) :
    ∀ pre : List Nat, (∀ d ∈ ds, d.WF) →
      parseDevicesFrom (pre ++ (ds.map serializeDevice).flatten) pre.length ds.length
        = (ds, false) := by
  induction ds with
  | nil => intro pre _; rfl
  | cons d tl ih =>
    intro pre h
    have hd : d.WF := h d (by simp)
    have htl : ∀ x ∈ tl, x.WF := fun x hx => h x (by simp [hx])
    have hlen53 : (serializeDevice d).length = 53 := rfl
    have hmap : ((d :: tl).map serializeDevice).flatten
        = serializeDevice d ++ (tl.map serializeDevice).flatten := by simp
    rw [hmap]
    have hlen : (pre ++ (serializeDevice d ++ (tl.map serializeDevice).flatten)).length
        = pre.length + 53 + ((tl.map serializeDevice).flatten).length := by
      simp [List.length_append, hlen53]
      try omega
    have hcond : pre.length
        < (pre ++ (serializeDevice d ++ (tl.map serializeDevice).flatten)).length := by
      omega
    show parseDevicesFrom (pre ++ (serializeDevice d ++ (tl.map serializeDevice).flatten))
        pre.length (tl.length + 1) = (d :: tl, false)
    simp only [parseDevicesFrom]
    rw [if_pos hcond]
    have hrec : parseDevicesFrom
        (pre ++ (serializeDevice d ++ (tl.map serializeDevice).flatten))
        (pre.length + 53) tl.length = (tl, false) := by
      rw [← List.append_assoc]
      rw [show pre.length + 53 = (pre ++ serializeDevice d).length by
        simp [List.length_append, hlen53]]
      exact ih (pre ++ serializeDevice d) htl
    have hdev : deserializeDeviceAt
        (pre ++ (serializeDevice d ++ (tl.map serializeDevice).flatten))
        pre.length = d := by
      rw [deserializeDeviceAt_shift]
      exact deserializeDeviceAt_serializeDevice d _ hd
    rw [hdev, hrec]
    rw [decide_eq_false (by omega :
      ¬ (pre ++ (serializeDevice d ++ (tl.map serializeDevice).flatten)).length
        < pre.length + 53)]
    simp

theorem header_reads (mg sq ts cn : Nat) (flat : List Nat)
    (hmg : mg < 4294967296) (hsq : sq < 4294967296)
    (hts : ts < 18446744073709551616) (hcn : cn < 4294967296) :
    readUint32At (writeUint32 mg ++ writeUint16 1 ++ writeUint32 sq
      ++ writeUint64 ts ++ writeUint32 cn ++ flat) 0 = mg ∧
    readUint32At (writeUint32 mg ++ writeUint16 1 ++ writeUint32 sq
      ++ writeUint64 ts ++ writeUint32 cn ++ flat) 6 = sq ∧
    readUint64At (writeUint32 mg ++ writeUint16 1 ++ writeUint32 sq
      ++ writeUint64 ts ++ writeUint32 cn ++ flat) 10 = ts ∧
    readUint32At (writeUint32 mg ++ writeUint16 1 ++ writeUint32 sq
      ++ writeUint64 ts ++ writeUint32 cn ++ flat) 18 = cn := by
  simp only [readUint32At, readUint64At, byteAt, writeUint32, writeUint16,
    writeUint64, List.cons_append, List.nil_append, List.append_assoc,
    List.getD_cons_zero, List.getD_cons_succ]
  refine ⟨by omega, by omega, by omega, by omega⟩

theorem serializeBinary_def (p : DataPacket) :
    serializeBinary p
      = writeUint32 0x41494D4C ++ writeUint16 1 ++ writeUint32 p.sequenceNumber
        ++ writeUint64 p.timestamp ++ writeUint32 (p.devices.length % 4294967296)
        ++ (p.devices.map serializeDevice).flatten := rfl

theorem binary_roundtrip (p : DataPacket) (h : p.WF) :
    deserializeBinary (serializeBinary p) = (some p, false) := by
  obtain ⟨hseq, hts, hlen, hdev⟩ := h
  have hser := serializeBinary_def p
  have hhdr := header_reads 0x41494D4C p.sequenceNumber p.timestamp
    (p.devices.length % 4294967296) ((p.devices.map serializeDevice).flatten)
    (by norm_num) hseq hts (by omega)
  obtain ⟨hmagic, hseqR, htsR, hcntR⟩ := hhdr
  rw [← hser] at hmagic hseqR htsR hcntR
  have hflatlen : (serializeBinary p).length
      = 22 + ((p.devices.map serializeDevice).flatten).length := by
    simp [serializeBinary, List.length_append, writeUint32, writeUint16, writeUint64]
    omega
  have hparse : parseDevicesFrom (serializeBinary p) 22 p.devices.length
      = (p.devices, false) := by
    have hsplit : serializeBinary p
        = (writeUint32 0x41494D4C ++ writeUint16 1 ++ writeUint32 p.sequenceNumber
            ++ writeUint64 p.timestamp
            ++ writeUint32 (p.devices.length % 4294967296))
          ++ (p.devices.map serializeDevice).flatten := by
      rw [hser]
    rw [hsplit]
    rw [show (22 : Nat) = (writeUint32 0x41494D4C ++ writeUint16 1
        ++ writeUint32 p.sequenceNumber ++ writeUint64 p.timestamp
        ++ writeUint32 (p.devices.length % 4294967296)).length by
      simp [writeUint32, writeUint16, writeUint64, List.length_append]]
    exact parseDevicesFrom_serialized p.devices _ hdev
  unfold deserializeBinary
  rw [if_neg (by omega)]
  rw [if_neg (by rw [hmagic]; norm_num)]
  simp only [hseqR, htsR, hcntR]
  rw [Nat.mod_eq_of_lt hlen, hparse]

theorem length_serializeBinary (p : DataPacket) :
    (serializeBinary p).length
      = 22 + ((p.devices.map serializeDevice).flatten).length := by
  simp [serializeBinary, List.length_append, writeUint32, writeUint16, writeUint64]
  omega

theorem isEmpty_serializeBinary (p : DataPacket) :
    (serializeBinary p).isEmpty = false := by
  have hl := length_serializeBinary p
  cases hsb : serializeBinary p with
  | nil => rw [hsb] at hl; simp at hl; omega
  | cons a l => rfl

theorem deserialize_dispatch_roundtrip (p q : DataPacket) (h : p.WF) :
    deserialize PacketFormat.Binary q (serializeBinary p) = (true, p) := by
  have h1 : (deserializeBinary (serializeBinary p)).1 = some p := by
    rw [binary_roundtrip p h]
  unfold deserialize
  rw [if_neg (by simp [isEmpty_serializeBinary p]), h1]

theorem roundtrip_loses_big_list :
    deserializeBinary (serializeBinary
      ⟨0, 0, List.replicate 4294967296
        ⟨0, 0, 0, false, 0, 0, 0, 0, 0, 0, 0, 0, false, false, 0, 0⟩⟩)
      = (some ⟨0, 0, []⟩, false) := by
  have hser := serializeBinary_def
    ⟨0, 0, List.replicate 4294967296
      ⟨0, 0, 0, false, 0, 0, 0, 0, 0, 0, 0, 0, false, false, 0, 0⟩⟩
  rw [show (⟨0, 0, List.replicate 4294967296
        ⟨0, 0, 0, false, 0, 0, 0, 0, 0, 0, 0, 0, false, false, 0, 0⟩⟩ : DataPacket).devices
      = List.replicate 4294967296
        ⟨0, 0, 0, false, 0, 0, 0, 0, 0, 0, 0, 0, false, false, 0, 0⟩ from rfl,
    show (⟨0, 0, List.replicate 4294967296
        ⟨0, 0, 0, false, 0, 0, 0, 0, 0, 0, 0, 0, false, false, 0, 0⟩⟩ : DataPacket).sequenceNumber
      = 0 from rfl,
    show (⟨0, 0, List.replicate 4294967296
        ⟨0, 0, 0, false, 0, 0, 0, 0, 0, 0, 0, 0, false, false, 0, 0⟩⟩ : DataPacket).timestamp
      = 0 from rfl,
    List.length_replicate, Nat.mod_self] at hser
  have hhdr := header_reads 0x41494D4C 0 0 0
    (((List.replicate 4294967296
      (⟨0, 0, 0, false, 0, 0, 0, 0, 0, 0, 0, 0, false, false, 0, 0⟩ : DeviceData)).map
        serializeDevice).flatten)
    (by norm_num) (by norm_num) (by norm_num) (by norm_num)
  obtain ⟨hmagic, hseqR, htsR, hcntR⟩ := hhdr
  rw [← hser] at hmagic hseqR htsR hcntR
  have hl := length_serializeBinary
    ⟨0, 0, List.replicate 4294967296
      ⟨0, 0, 0, false, 0, 0, 0, 0, 0, 0, 0, 0, false, false, 0, 0⟩⟩
  unfold deserializeBinary
  rw [if_neg (by omega)]
  rw [if_neg (by rw [hmagic]; norm_num)]
  rw [hseqR, htsR, hcntR]
  rfl

end AimlabVR
namespace AimlabVR

/-! ### JSON codec lemmas -/

theorem strBytes_append (s t : String) :
    strBytes (s ++ t) = strBytes s ++ strBytes t := by
  simp [strBytes, String.data_append]

theorem length_serializeJSON_pos (fpr : Nat → String) (p : DataPacket) :
    0 < (serializeJSON fpr p).length := by
  unfold serializeJSON serializeJSONText
  rw [strBytes_append, List.length_append]
  have h2 : (strBytes "]\x7d").length = 2 := rfl
  omega

theorem serializeJSON_ne_nil (fpr : Nat → String) (p : DataPacket) :
    serializeJSON fpr p ≠ [] := by
  have h := length_serializeJSON_pos fpr p
  intro hnil
  rw [hnil] at h
  simp at h

theorem deserializeJSON_always_fails (p q : DataPacket) (data : List Nat)
    (fpr : Nat → String) :
    (deserialize PacketFormat.JSON p data).1 = false ∧
    (data ≠ [] → (deserialize PacketFormat.JSON p data).2.devices = []) ∧
    serializeJSON fpr q ≠ [] ∧
    deserialize PacketFormat.JSON p (serializeJSON fpr q)
      = (false, { p with devices := [] }) := by
  refine ⟨?_, ?_, serializeJSON_ne_nil fpr q, ?_⟩
  · cases data with
    | nil => rfl
    | cons a l => rfl
  · intro hne
    cases data with
    | nil => exact absurd rfl hne
    | cons a l => rfl
  · cases hsj : serializeJSON fpr q with
    | nil => exact absurd hsj (serializeJSON_ne_nil fpr q)
    | cons a l => rfl

/-! ### Streamer lemmas -/

theorem startStreaming_resets (st : StreamerState) (h : (startStreaming st).1 = true) :
    (startStreaming st).2.sequenceNumber = 0 ∧
    (startStreaming st).2.totalPacketsSent = 0 ∧
    (startStreaming st).2.isStreaming = true ∧
    (startStreaming st).2.shouldStop = false ∧
    (startStreaming st).2.hasVrDevice = st.hasVrDevice ∧
    (startStreaming st).2.hasNetworkManager = st.hasNetworkManager ∧
    st.hasVrDevice = true ∧ st.hasNetworkManager = true := by
  cases hiv : st.isStreaming <;> cases hdv : st.hasVrDevice <;>
    cases hnm : st.hasNetworkManager <;> cases hnc : st.networkConnected <;>
    simp_all [startStreaming]

theorem runFrames_assigned (ticks : List TickInput) :
    ∀ st : StreamerState, st.hasVrDevice = true → st.hasNetworkManager = true →
      st.sequenceNumber < 4294967296 →
      (∀ t ∈ ticks, t.updateOk = true) →
      (runFrames st ticks).2
        = (List.range ticks.length).map
            (fun i => (st.sequenceNumber + i) % 4294967296) := by
  induction ticks with
  | nil => intro st _ _ _ _; rfl
  | cons t ts ih =>
    intro st hv hn hb hupd
    have ht : t.updateOk = true := hupd t (by simp)
    have hts : ∀ x ∈ ts, x.updateOk = true := fun x hx => hupd x (by simp [hx])
    have hrange : (List.range (ts.length + 1)).map
          (fun i => (st.sequenceNumber + i) % 4294967296)
        = st.sequenceNumber % 4294967296
          :: (List.range ts.length).map
              (fun i => (st.sequenceNumber + (i + 1)) % 4294967296) := by
      rw [List.range_succ_eq_map]
      simp [List.map_map]
    cases hsend : t.sendOk with
    | false =>
      simp only [runFrames, sendFrame, hv, hn, ht, hsend, Bool.and_self,
        Bool.not_true, Bool.not_false, Bool.false_eq_true, if_false, if_true,
        ite_true, ite_false, Option.toList]
      rw [ih { st with sequenceNumber := (st.sequenceNumber + 1) % 4294967296, hasVrDevice := true, hasNetworkManager := true } rfl rfl (Nat.mod_lt _ (by omega)) hts]
      simp only [List.length_cons, hrange, List.singleton_append]
      congr 1
      · omega
      · apply List.map_congr_left
        intro i _
        show ((st.sequenceNumber + 1) % 4294967296 + i) % 4294967296
          = (st.sequenceNumber + (i + 1)) % 4294967296
        omega
    | true =>
      simp only [runFrames, sendFrame, hv, hn, ht, hsend, Bool.and_self,
        Bool.not_true, Bool.not_false, Bool.false_eq_true, if_false, if_true,
        ite_true, ite_false, Option.toList]
      rw [ih { st with sequenceNumber := (st.sequenceNumber + 1) % 4294967296, totalPacketsSent := st.totalPacketsSent + 1, hasVrDevice := true, hasNetworkManager := true } rfl rfl (Nat.mod_lt _ (by omega)) hts]
      simp only [List.length_cons, hrange, List.singleton_append]
      congr 1
      · omega
      · apply List.map_congr_left
        intro i _
        show ((st.sequenceNumber + 1) % 4294967296 + i) % 4294967296
          = (st.sequenceNumber + (i + 1)) % 4294967296
        omega

theorem sendFrame_failure (st : StreamerState) (t : TickInput)
    (hv : st.hasVrDevice = true) (hn : st.hasNetworkManager = true)
    (hu : t.updateOk = true) (hs : t.sendOk = false)
    (he : st.errorCallbackSet = true) (hstop : st.shouldStop = false) :
    (sendFrame st t).1 = false ∧
    (sendFrame st t).2.2.errorCallbackInvoked = true ∧
    (sendFrame st t).2.2.sentCallbackInvoked = false ∧
    (sendFrame st t).2.1.totalPacketsSent = st.totalPacketsSent ∧
    (sendFrame st t).2.1.isStreaming = st.isStreaming ∧
    (sendFrame st t).2.1.shouldStop = false ∧
    streamingThreadStep st t = ((sendFrame st t).2.1, true) := by
  unfold streamingThreadStep sendFrame
  simp [hv, hn, hu, hs, he, hstop]

/-! ### Scheduler timing lemmas -/

theorem streamTick_spec (nextFrameTime now period : Nat) :
    (now < nextFrameTime + period →
      streamTick nextFrameTime now period
        = (nextFrameTime + period, nextFrameTime + period)) ∧
    (nextFrameTime + period ≤ now →
      streamTick nextFrameTime now period = (now, now)) ∧
    (streamTick nextFrameTime now period).2
      ≤ (streamTick nextFrameTime now period).1 := by
  unfold streamTick
  refine ⟨fun h => by simp [h], fun h => by rw [if_neg (by omega)], ?_⟩
  by_cases h : now < nextFrameTime + period
  · simp [h]
  · rw [if_neg h]

theorem streamRun_deadline_invariant (period : Nat) (δs : List Nat) :
    ∀ nextFrameTime now : Nat, now ≤ nextFrameTime →
      (streamRun period nextFrameTime now δs).2
        ≤ (streamRun period nextFrameTime now δs).1 := by
  induction δs with
  | nil => intro d n h; exact h
  | cons δ rest ih =>
    intro d n h
    simp only [streamRun]
    by_cases hc : n + δ < d + period
    · have ht : streamTick d (n + δ) period = (d + period, d + period) := by
        simp [streamTick, hc]
      rw [ht]
      exact ih (d + period) (d + period) (by omega)
    · have ht : streamTick d (n + δ) period = (n + δ, n + δ) := by
        simp [streamTick]
        omega
      rw [ht]
      exact ih (n + δ) (n + δ) (by omega)

end AimlabVR
namespace UdpChat

/-! ### Discovery filter and handshake lemmas -/

theorem discStep_filters (st : DiscState) (ip received : String)
    (h : msgField received 1 ≠ PEER_ID) : discStep st ip received = (st, []) := by
  unfold discStep
  rw [if_neg (fun hc => h hc.2), if_neg (fun hc => h hc.2)]

theorem hsLoop_no_ready (fuel : Nat) :
    ∀ (inputs : List (Option String)) (r : Bool),
      (∀ i ∈ inputs, isReadyMsg i = false) →
      (hsLoop fuel false r inputs).1 = false := by
  induction fuel with
  | zero => intro inputs r _; rfl
  | succ n ih =>
    intro inputs r hno
    show (hsLoop (n + 1) false r inputs).1 = false
    simp only [hsLoop, Bool.false_and, Bool.false_eq_true, if_false]
    cases inputs with
    | nil =>
      show (hsLoop n false r []).1 = false
      exact ih [] r (by intro i hi; cases hi)
    | cons i t =>
      have hi : isReadyMsg i = false := hno i (by simp)
      have ht : ∀ x ∈ t, isReadyMsg x = false := fun x hx => hno x (by simp [hx])
      cases i with
      | none => exact ih t _ ht
      | some s =>
        by_cases hH : strStartsWith s "HANDSHAKE" = true
        · simp only [hsStep, List.headD, hH, List.tail_cons, if_true]
          exact ih t _ ht
        · have hR : strStartsWith s "READY" = false := by
            have := hi
            simp only [isReadyMsg, hH] at this
            simpa using this
          simp only [hsStep, List.headD, hH, hR, List.tail_cons, Bool.false_eq_true,
            if_false]
          exact ih t _ ht

theorem hsLoop_no_handshake (fuel : Nat) :
    ∀ (inputs : List (Option String)) (s : Bool),
      (∀ i ∈ inputs, isHandshakeMsg i = false) →
      (hsLoop fuel s false inputs).2.1 = false := by
  induction fuel with
  | zero => intro inputs s _; rfl
  | succ n ih =>
    intro inputs s hno
    show (hsLoop (n + 1) s false inputs).2.1 = false
    simp only [hsLoop, Bool.and_false, Bool.false_eq_true, if_false]
    cases inputs with
    | nil =>
      show (hsLoop n _ false []).2.1 = false
      exact ih [] _ (by intro i hi; cases hi)
    | cons i t =>
      have hi : isHandshakeMsg i = false := hno i (by simp)
      have ht : ∀ x ∈ t, isHandshakeMsg x = false := fun x hx => hno x (by simp [hx])
      cases i with
      | none => exact ih t _ ht
      | some str =>
        have hH : strStartsWith str "HANDSHAKE" = false := by
          simpa [isHandshakeMsg] using hi
        by_cases hR : strStartsWith str "READY" = true
        · simp only [hsStep, List.headD, hH, hR, List.tail_cons, Bool.false_eq_true,
            if_false, if_true]
          exact ih t _ ht
        · simp only [hsStep, List.headD, hH, Bool.eq_false_iff.mpr hR,
            List.tail_cons, Bool.false_eq_true, if_false]
          exact ih t _ ht

theorem hsLoop_replied (fuel : Nat) :
    ∀ (inputs : List (Option String)) (s : Bool),
      (hsLoop fuel s false inputs).2.1 = true →
      ready_msg ∈ (hsLoop fuel s false inputs).2.2 := by
  induction fuel with
  | zero => intro inputs s h; exact absurd h (by simp [hsLoop])
  | succ n ih =>
    intro inputs s h
    rw [show hsLoop (n + 1) s false inputs
        = (if s && false then (s, false, [])
          else
            let r := hsStep s false (inputs.headD none)
            let rest := hsLoop n r.1 r.2.1 inputs.tail
            (rest.1, rest.2.1, r.2.2 ++ rest.2.2)) from rfl] at h ⊢
    simp only [Bool.and_false, Bool.false_eq_true, if_false] at h ⊢
    by_cases hH : isHandshakeMsg (inputs.headD none) = true
    · cases hh : inputs.headD none with
      | none => rw [hh] at hH; exact absurd hH (by simp [isHandshakeMsg])
      | some str =>
        rw [hh] at hH
        have hstr : strStartsWith str "HANDSHAKE" = true := by
          simpa [isHandshakeMsg] using hH
        simp only [hsStep, hstr, if_true]
        apply List.mem_append_left
        apply List.mem_append_right
        simp
    · have hkeep : (hsStep s false (inputs.headD none)).2.1 = false := by
        cases hh : inputs.headD none with
        | none => rfl
        | some str =>
          rw [hh] at hH
          have hstr : strStartsWith str "HANDSHAKE" = false := by
            simpa [isHandshakeMsg] using hH
          by_cases hR : strStartsWith str "READY" = true
          · simp [hsStep, hstr, hR]
          · simp [hsStep, hstr, Bool.eq_false_iff.mpr hR]
      rw [hkeep] at h ⊢
      apply List.mem_append_right
      exact ih inputs.tail _ h

theorem hsLoop_sent_needs_ready (fuel : Nat) :
    ∀ (inputs : List (Option String)) (r : Bool),
      (hsLoop fuel false r inputs).1 = true →
      ∃ i ∈ inputs, isReadyMsg i = true := by
  intro inputs r h
  by_contra hno
  push_neg at hno
  have : ∀ i ∈ inputs, isReadyMsg i = false := by
    intro i hi
    have := hno i hi
    simpa using this
  rw [hsLoop_no_ready fuel inputs r this] at h
  exact absurd h (by simp)

theorem hsLoop_recv_needs_handshake (fuel : Nat) :
    ∀ (inputs : List (Option String)) (s : Bool),
      (hsLoop fuel s false inputs).2.1 = true →
      ∃ i ∈ inputs, isHandshakeMsg i = true := by
  intro inputs s h
  by_contra hno
  push_neg at hno
  have : ∀ i ∈ inputs, isHandshakeMsg i = false := by
    intro i hi
    have := hno i hi
    simpa using this
  rw [hsLoop_no_handshake fuel inputs s this] at h
  exact absurd h (by simp)

theorem performHandshake_two_latches (inputs : List (Option String)) :
    ((performHandshake inputs).1 = true ↔
      (hsLoop 10 false false inputs).1 = true ∧
      (hsLoop 10 false false inputs).2.1 = true) ∧
    ((∀ i ∈ inputs, isReadyMsg i = false) → (performHandshake inputs).1 = false) ∧
    ((∀ i ∈ inputs, isHandshakeMsg i = false) → (performHandshake inputs).1 = false) ∧
    ((performHandshake inputs).1 = true →
      (∃ i ∈ inputs, isReadyMsg i = true) ∧
      (∃ i ∈ inputs, isHandshakeMsg i = true) ∧
      ready_msg ∈ (performHandshake inputs).2) := by
  refine ⟨by simp [performHandshake], ?_, ?_, ?_⟩
  · intro hno
    simp only [performHandshake]
    rw [hsLoop_no_ready 10 inputs false hno]
    simp
  · intro hno
    simp only [performHandshake]
    rw [hsLoop_no_handshake 10 inputs false hno]
    simp
  · intro hsucc
    simp only [performHandshake, Bool.and_eq_true] at hsucc
    refine ⟨hsLoop_sent_needs_ready 10 inputs false hsucc.1,
      hsLoop_recv_needs_handshake 10 inputs false hsucc.2,
      hsLoop_replied 10 inputs false hsucc.2⟩

end UdpChat
namespace AIMLAB

/-! ### Peer registry and liveness lemmas -/

theorem heartbeat_sweep_spec (now : Nat) (peers : List (String × PeerInfo)) :
    (heartbeat_sweep now peers).1
      = peers.map (fun e =>
          (e.1, { e.2 with is_connected := e.2.is_connected && !(e.2.isTimeout now) })) := by
  induction peers with
  | nil => rfl
  | cons e rest ih =>
    obtain ⟨id, p⟩ := e
    obtain ⟨pip, pport, plh, pconn⟩ := p
    cases hconn : pconn with
    | false =>
      simp only [heartbeat_sweep, List.map_cons]
      rw [ih]
      simp
    | true =>
      cases htmo : PeerInfo.isTimeout now ⟨pip, pport, plh, true⟩ with
      | true =>
        simp only [heartbeat_sweep, htmo, if_true, List.map_cons]
        rw [ih]
        simp [htmo]
      | false =>
        simp only [heartbeat_sweep, htmo, List.map_cons]
        rw [ih]
        simp [htmo]

theorem lookup_isSome_of_mem (peers : List (String × PeerInfo)) (e : String × PeerInfo)
    (hmem : e ∈ peers) (id : String) (hkey : e.1 = id) :
    (peers.lookup id).isSome = true := by
  induction peers with
  | nil => cases hmem
  | cons hd rest ih =>
    simp only [List.lookup]
    cases hbeq : id == hd.1 with
    | true => rfl
    | false =>
      cases hmem with
      | head =>
        rw [hkey] at hbeq
        simp at hbeq
      | tail _ hmem2 => exact ih hmem2

theorem update_heartbeat_in_spec (now : Nat) (peers : List (String × PeerInfo))
    (id : String) :
    ∀ e ∈ update_heartbeat_in now peers id, e.1 = id → e.2.last_heartbeat = now := by
  intro e hmem hkey
  unfold update_heartbeat_in at hmem
  obtain ⟨e0, hmem0, heq⟩ := List.mem_map.mp hmem
  by_cases h0 : e0.1 = id
  · rw [if_pos h0] at heq
    rw [← heq]
  · rw [if_neg h0] at heq
    rw [← heq] at hkey
    exact absurd hkey h0

theorem refresh_known_sender_spec (now : Nat) (st : NMState) (msg : Message) :
    ∀ e ∈ (refresh_known_sender now st msg).peers,
      e.1 = peerId msg.sender_ip msg.sender_port → e.2.last_heartbeat = now := by
  intro e hmem hkey
  unfold refresh_known_sender at hmem
  by_cases hk : (st.peers.lookup (peerId msg.sender_ip msg.sender_port)).isSome = true
  · rw [if_pos hk] at hmem
    exact update_heartbeat_in_spec now st.peers _ e hmem hkey
  · rw [if_neg hk] at hmem
    exact absurd (lookup_isSome_of_mem st.peers e hmem _ hkey) hk

theorem mark_peer_connected_keeps_refresh (now : Nat) (st : NMState) (ip : String)
    (port : Nat) (id : String)
    (hpre : ∀ e ∈ st.peers, e.1 = id → e.2.last_heartbeat = now) :
    ∀ e ∈ (mark_peer_connected now st ip port).peers,
      e.1 = id → e.2.last_heartbeat = now := by
  intro e hmem hkey
  unfold mark_peer_connected at hmem
  by_cases hk : (st.peers.lookup (peerId ip port)).isSome = true
  · rw [if_pos hk] at hmem
    simp only at hmem
    obtain ⟨e0, hmem0, heq⟩ := List.mem_map.mp hmem
    by_cases h0 : e0.1 = peerId ip port
    · rw [if_pos h0] at heq
      rw [← heq]
    · rw [if_neg h0] at heq
      rw [← heq] at hkey ⊢
      exact hpre e0 hmem0 hkey
  · rw [if_neg hk] at hmem
    exact hpre e hmem hkey

theorem handle_incoming_message_refreshes (now : Nat) (st : NMState) (msg : Message)
    (hty : msg.type ≠ DISCONNECT) :
    ∀ e ∈ (handle_incoming_message now st msg).peers,
      e.1 = peerId msg.sender_ip msg.sender_port → e.2.last_heartbeat = now := by
  have hst1 := refresh_known_sender_spec now st msg
  intro e hmem hkey
  simp only [handle_incoming_message] at hmem
  by_cases h1 : msg.type = HANDSHAKE_START
  · rw [if_pos h1] at hmem
    exact hst1 e hmem hkey
  · rw [if_neg h1] at hmem
    by_cases h2 : msg.type = HANDSHAKE_ACK
    · rw [if_pos h2] at hmem
      unfold handle_handshake_ack at hmem
      refine mark_peer_connected_keeps_refresh now { refresh_known_sender now st msg with outgoing_messages := (refresh_known_sender now st msg).outgoing_messages ++ [⟨HANDSHAKE_COMPLETE, "", msg.sender_ip, msg.sender_port⟩] } msg.sender_ip msg.sender_port (peerId msg.sender_ip msg.sender_port) ?_ e hmem hkey
      exact fun x hx hk => hst1 x hx hk
    · rw [if_neg h2] at hmem
      by_cases h3 : msg.type = HANDSHAKE_COMPLETE
      · rw [if_pos h3] at hmem
        unfold handle_handshake_complete at hmem
        exact mark_peer_connected_keeps_refresh now _ _ _ _ hst1 e hmem hkey
      · rw [if_neg h3] at hmem
        by_cases h4 : msg.type = DATA
        · rw [if_pos h4] at hmem
          exact hst1 e hmem hkey
        · rw [if_neg h4] at hmem
          by_cases h5 : msg.type = HEARTBEAT
          · rw [if_pos h5] at hmem
            exact hst1 e hmem hkey
          · rw [if_neg h5] at hmem
            rw [if_neg hty] at hmem
            exact hst1 e hmem hkey

end AIMLAB
namespace AimlabDS

/-! ### Command dispatch lemmas -/

theorem closeDataFile_closes (st : CmdState) : (closeDataFile st).file_open = false := by
  unfold closeDataFile
  cases h : st.file_open <;> simp [h]

theorem processCommand_spec (genName : String) (fsOk : Bool) (st : CmdState)
    (command : String) :
    (cmdOpcode command ∉ (["OPEN_FILE", "CLOSE_FILE", "GET_STATUS", "SHUTDOWN"] : List String) →
      processCommand genName fsOk st command = ("STATUS" ++ ":UNKNOWN_COMMAND", st)) ∧
    (∃ t, (processCommand genName fsOk st command).1 = "STATUS" ++ t) ∧
    (cmdOpcode command = "CLOSE_FILE" →
      processCommand genName fsOk st command = ("STATUS" ++ ":FILE_CLOSED", closeDataFile st) ∧
      (processCommand genName fsOk st command).2.file_open = false) ∧
    (cmdOpcode command = "SHUTDOWN" →
      (processCommand genName fsOk st command).2.running = false) ∧
    (cmdOpcode command = "GET_STATUS" →
      processCommand genName fsOk st command = (statusRunningReply st, st)) := by
  by_cases h1 : cmdOpcode command = "OPEN_FILE"
  · refine ⟨fun hno => absurd (by simp [h1]) hno, ?_, ?_, ?_, ?_⟩
    · unfold processCommand
      rw [if_pos h1]
      cases hopen : (openDataFile genName fsOk st (cmdArg command)).1 with
      | true =>
        rw [if_pos hopen]
        exact ⟨":FILE_OPENED:" ++ (openDataFile genName fsOk st (cmdArg command)).2.current_filename,
          String.append_assoc _ _ _⟩
      | false =>
        rw [if_neg (by simp [hopen])]
        exact ⟨":FILE_OPEN_FAILED", rfl⟩
    · intro h2; rw [h1] at h2; simp at h2
    · intro h2; rw [h1] at h2; simp at h2
    · intro h2; rw [h1] at h2; simp at h2
  · by_cases h2 : cmdOpcode command = "CLOSE_FILE"
    · have heq : processCommand genName fsOk st command
          = ("STATUS" ++ ":FILE_CLOSED", closeDataFile st) := by
        unfold processCommand
        rw [if_neg h1, if_pos h2]
      refine ⟨fun hno => absurd (by simp [h2]) hno,
        ⟨":FILE_CLOSED", by rw [heq]⟩,
        fun _ => ⟨heq, by rw [heq]; exact closeDataFile_closes st⟩,
        ?_, ?_⟩
      · intro h3; rw [h2] at h3; simp at h3
      · intro h3; rw [h2] at h3; simp at h3
    · by_cases h3 : cmdOpcode command = "GET_STATUS"
      · have heq : processCommand genName fsOk st command = (statusRunningReply st, st) := by
          unfold processCommand
          rw [if_neg h1, if_neg h2, if_pos h3]
        refine ⟨fun hno => absurd (by simp [h3]) hno,
          ⟨":RUNNING:file_open=" ++ (if st.file_open then "true" else "false") ++
            ",filename=" ++ (if st.file_open then st.current_filename else "none") ++
            ",data_count=" ++ Nat.repr st.data_count ++
            ",files_created=" ++ Nat.repr st.file_count, by rw [heq]; rfl⟩,
          ?_, ?_, fun _ => heq⟩
        · intro h4; rw [h3] at h4; simp at h4
        · intro h4; rw [h3] at h4; simp at h4
      · by_cases h4 : cmdOpcode command = "SHUTDOWN"
        · have heq : processCommand genName fsOk st command
              = ("STATUS" ++ ":SHUTTING_DOWN",
                 { (if st.file_open then closeDataFile st else st) with running := false }) := by
            unfold processCommand
            rw [if_neg h1, if_neg h2, if_neg h3, if_pos h4]
          refine ⟨fun hno => absurd (by simp [h4]) hno,
            ⟨":SHUTTING_DOWN", by rw [heq]⟩,
            ?_, fun _ => by rw [heq], ?_⟩
          · intro h5; rw [h4] at h5; simp at h5
          · intro h5; rw [h4] at h5; simp at h5
        · have heq : processCommand genName fsOk st command
              = ("STATUS" ++ ":UNKNOWN_COMMAND", st) := by
            unfold processCommand
            rw [if_neg h1, if_neg h2, if_neg h3, if_neg h4]
          refine ⟨fun _ => heq, ⟨":UNKNOWN_COMMAND", by rw [heq]⟩,
            fun h5 => absurd h5 h2, fun h5 => absurd h5 h4, fun h5 => absurd h5 h3⟩

end AimlabDS
/-! ## Claim theorems

One theorem (plus witness / counterexample where applicable) per claim of
the specification review. -/

/-- C1 (amended): for every Binary-format `DataPacket` holding fewer than
`2^32` device records whose fields are within their C++ ranges,
deserializing the bytes produced by serializing it succeeds and reproduces
the packet exactly — sequence number, timestamp, and every serialized
device field, floats compared bit-for-bit (they are carried as their
32-bit patterns); the same holds through the `deserialize` format
dispatch, whatever packet it overwrites. -/
theorem C1_binary_roundtrip_exact (p q : AimlabVR.DataPacket) (h : p.WF) :
    AimlabVR.deserializeBinary (AimlabVR.serializeBinary p) = (some p, false) ∧
    AimlabVR.deserialize AimlabVR.PacketFormat.Binary q (AimlabVR.serializeBinary p)
      = (true, p) :=
  ⟨AimlabVR.binary_roundtrip p h, AimlabVR.deserialize_dispatch_roundtrip p q h⟩

/-- C1 witness: a concrete one-device packet is well-formed and
round-trips exactly. -/
theorem C1_roundtrip_witness :
    AimlabVR.DataPacket.WF
      ⟨5, 10, [⟨1, 2, 1, true, 3, 4, 5, 6, 7, 8, 9, 11, true, false, 12, 13⟩]⟩ ∧
    AimlabVR.deserializeBinary (AimlabVR.serializeBinary
      ⟨5, 10, [⟨1, 2, 1, true, 3, 4, 5, 6, 7, 8, 9, 11, true, false, 12, 13⟩]⟩)
      = (some ⟨5, 10, [⟨1, 2, 1, true, 3, 4, 5, 6, 7, 8, 9, 11, true, false, 12, 13⟩]⟩,
         false) :=
  ⟨by decide,
   (C1_binary_roundtrip_exact
     ⟨5, 10, [⟨1, 2, 1, true, 3, 4, 5, 6, 7, 8, 9, 11, true, false, 12, 13⟩]⟩
     ⟨0, 0, []⟩ (by decide)).1⟩

/-- C1 counterexample: the claim as stated ranges over any finite device
list, but `deviceCount` is written as `static_cast<uint32_t>(size())`.
A packet holding `2^32` records serializes with a zero device count, so
the round trip "succeeds" yet returns an empty device list — not the
original packet. -/
theorem C1_big_list_counterexample :
    AimlabVR.deserializeBinary (AimlabVR.serializeBinary
      ⟨0, 0, List.replicate 4294967296
        ⟨0, 0, 0, false, 0, 0, 0, 0, 0, 0, 0, 0, false, false, 0, 0⟩⟩)
      = (some ⟨0, 0, []⟩, false) ∧
    (⟨0, 0, List.replicate 4294967296
      ⟨0, 0, 0, false, 0, 0, 0, 0, 0, 0, 0, 0, false, false, 0, 0⟩⟩
        : AimlabVR.DataPacket).devices ≠ [] := by
  refine ⟨AimlabVR.roundtrip_loses_big_list, ?_⟩
  intro h
  rw [show (⟨0, 0, List.replicate 4294967296
      ⟨0, 0, 0, false, 0, 0, 0, 0, 0, 0, 0, 0, false, false, 0, 0⟩⟩
        : AimlabVR.DataPacket).devices
      = List.replicate 4294967296
        ⟨0, 0, 0, false, 0, 0, 0, 0, 0, 0, 0, 0, false, false, 0, 0⟩ from rfl] at h
  have h2 := congrArg List.length h
  rw [List.length_replicate] at h2
  simp only [List.length_nil] at h2
  exact absurd h2 (by norm_num)

/-- C2: evaluation of `deserializeBinary` at the claim's failing input.
The 23-byte buffer carries a valid magic header declaring one device
(implied length `22 + 53 = 75` bytes), so it is truncated; the claim says
decoding must return an error without reading out of bounds, but the code
returns success (`isSome`) and its device loop indexes past the end of the
buffer (the out-of-bounds flag is `true`).  A buffer with a corrupted
magic number, by contrast, is rejected cleanly. -/
theorem C2_truncated_decode_eval :
    ((AimlabVR.deserializeBinary [0x41, 0x49, 0x4D, 0x4C, 0, 1, 0, 0, 0, 7,
        0, 0, 0, 0, 0, 0, 0, 9, 0, 0, 0, 1, 99]).1).isSome = true ∧
    (AimlabVR.deserializeBinary [0x41, 0x49, 0x4D, 0x4C, 0, 1, 0, 0, 0, 7,
        0, 0, 0, 0, 0, 0, 0, 9, 0, 0, 0, 1, 99]).2 = true ∧
    AimlabVR.readUint32At [0x41, 0x49, 0x4D, 0x4C, 0, 1, 0, 0, 0, 7,
        0, 0, 0, 0, 0, 0, 0, 9, 0, 0, 0, 1, 99] 18 = 1 ∧
    ([0x41, 0x49, 0x4D, 0x4C, 0, 1, 0, 0, 0, 7,
        0, 0, 0, 0, 0, 0, 0, 9, 0, 0, 0, 1, 99] : List Nat).length = 23 ∧
    AimlabVR.deserializeBinary [0, 0, 0, 0, 0, 1, 0, 0, 0, 7,
        0, 0, 0, 0, 0, 0, 0, 9, 0, 0, 0, 0, 0] = (none, false) :=
  ⟨rfl, rfl, rfl, rfl, rfl⟩

/-- C3 (amended): in the minimal-test handshake loop (`performHandshake`
of `udp_chat_node2.cpp`) success requires both one-shot latches — the
local request acknowledged by a peer `READY`, and a peer-initiated
`HANDSHAKE` received and answered with `READY` — so one-sided-only traffic
leaves the result `false` after the 10-attempt budget, and success implies
both kinds of datagrams arrived and a `READY` reply was sent.  (The
`NetworkManager` variant does not satisfy the original claim; see the
counterexample.) -/
theorem C3_two_sided_handshake (inputs : List (Option String)) :
    ((UdpChat.performHandshake inputs).1 = true ↔
      (UdpChat.hsLoop 10 false false inputs).1 = true ∧
      (UdpChat.hsLoop 10 false false inputs).2.1 = true) ∧
    ((∀ i ∈ inputs, UdpChat.isReadyMsg i = false) →
      (UdpChat.performHandshake inputs).1 = false) ∧
    ((∀ i ∈ inputs, UdpChat.isHandshakeMsg i = false) →
      (UdpChat.performHandshake inputs).1 = false) ∧
    ((UdpChat.performHandshake inputs).1 = true →
      (∃ i ∈ inputs, UdpChat.isReadyMsg i = true) ∧
      (∃ i ∈ inputs, UdpChat.isHandshakeMsg i = true) ∧
      UdpChat.ready_msg ∈ (UdpChat.performHandshake inputs).2) :=
  UdpChat.performHandshake_two_latches inputs

/-- C3 witness: receiving only peer-initiated handshake requests (never a
READY acknowledgment) leaves the handshake short of success. -/
theorem C3_handshake_witness :
    (∀ i ∈ ([some "HANDSHAKE:NODE1", none] : List (Option String)),
      UdpChat.isReadyMsg i = false) ∧
    (UdpChat.performHandshake [some "HANDSHAKE:NODE1", none]).1 = false :=
  ⟨by decide, (C3_two_sided_handshake [some "HANDSHAKE:NODE1", none]).2.1 (by decide)⟩

/-- C3 counterexample: `NetworkManager::handle_handshake_ack` marks the
peer connected on receipt of a single `HANDSHAKE_ACK`, without any
peer-initiated `HANDSHAKE_START` ever having been received or replied to —
so the system does not declare the handshake successful "only when both
directions have confirmed". -/
theorem C3_ack_only_counterexample :
    (AIMLAB.handle_incoming_message 100
        ⟨[("10.0.0.8:45001", ⟨"10.0.0.8", 45001, 0, false⟩)], [], []⟩
        ⟨AIMLAB.HANDSHAKE_ACK, "1.0", "10.0.0.8", 45001⟩).peers
      = [("10.0.0.8:45001", ⟨"10.0.0.8", 45001, 100, true⟩)] ∧
    AIMLAB.HANDSHAKE_ACK ≠ AIMLAB.HANDSHAKE_START :=
  ⟨rfl, by decide⟩

/-- C4: a successful `startStreaming` resets the sequence counter to 0,
and the sequence numbers assigned to the frames of one session are exactly
`0, 1, 2, …` reduced mod `2^32`: each frame's number is one greater
(mod `2^32`) than the previous frame's. -/
theorem C4_sequence_monotone (st : AimlabVR.StreamerState)
    (ticks : List AimlabVR.TickInput)
    (h1 : (AimlabVR.startStreaming st).1 = true)
    (h2 : ∀ t ∈ ticks, t.updateOk = true) :
    (AimlabVR.startStreaming st).2.sequenceNumber = 0 ∧
    (AimlabVR.runFrames (AimlabVR.startStreaming st).2 ticks).2
      = (List.range ticks.length).map (fun i => i % 4294967296) ∧
    ∀ i, i + 1 < (AimlabVR.runFrames (AimlabVR.startStreaming st).2 ticks).2.length →
      (AimlabVR.runFrames (AimlabVR.startStreaming st).2 ticks).2.getD (i + 1) 0
        = ((AimlabVR.runFrames (AimlabVR.startStreaming st).2 ticks).2.getD i 0 + 1)
            % 4294967296 := by
  obtain ⟨hseq0, _, _, _, hvEq, hnEq, hv, hn⟩ := AimlabVR.startStreaming_resets st h1
  have hrun := AimlabVR.runFrames_assigned ticks (AimlabVR.startStreaming st).2
    (by rw [hvEq, hv]) (by rw [hnEq, hn]) (by rw [hseq0]; norm_num) h2
  rw [hseq0] at hrun
  simp only [Nat.zero_add] at hrun
  refine ⟨hseq0, hrun, ?_⟩
  intro i hi
  rw [hrun] at hi ⊢
  simp only [List.length_map, List.length_range] at hi
  rw [List.getD_eq_getElem?_getD, List.getD_eq_getElem?_getD,
    List.getElem?_map, List.getElem?_map,
    List.getElem?_range hi, List.getElem?_range (by omega : i < ticks.length)]
  show (i + 1) % 4294967296 = (i % 4294967296 + 1) % 4294967296
  omega

/-- C4 witness: a concrete session of three frames is assigned the
sequence numbers 0, 1, 2. -/
theorem C4_sequence_witness :
    (AimlabVR.startStreaming ⟨false, false, 3, 7, true, true, true, false, false⟩).1
      = true ∧
    (∀ t ∈ ([⟨true, true, 5⟩, ⟨true, false, 6⟩, ⟨true, true, 7⟩]
        : List AimlabVR.TickInput), t.updateOk = true) ∧
    (AimlabVR.runFrames
        (AimlabVR.startStreaming ⟨false, false, 3, 7, true, true, true, false, false⟩).2
        [⟨true, true, 5⟩, ⟨true, false, 6⟩, ⟨true, true, 7⟩]).2
      = (List.range 3).map (fun i => i % 4294967296) :=
  ⟨by decide, by decide,
   (C4_sequence_monotone ⟨false, false, 3, 7, true, true, true, false, false⟩
     [⟨true, true, 5⟩, ⟨true, false, 6⟩, ⟨true, true, 7⟩]
     (by decide) (by decide)).2.1⟩

/-- C5: one pass of the heartbeat worker over the peer map disconnects
exactly the connected peers whose `last_heartbeat` lags `now` by more than
`CONNECTION_TIMEOUT_MS = 15000` ms and keeps every peer refreshed within
the window; and every inbound non-DISCONNECT envelope from a known peer
address leaves that peer's `last_heartbeat` equal to the current instant
(a DISCONNECT destroys the record instead). -/
theorem C5_liveness_sweep (now : Nat) (peers : List (String × AIMLAB.PeerInfo))
    (now2 : Nat) (st : AIMLAB.NMState) (msg : AIMLAB.Message)
    (hty : msg.type ≠ AIMLAB.DISCONNECT) :
    AIMLAB.CONNECTION_TIMEOUT_MS = 15000 ∧
    (AIMLAB.heartbeat_sweep now peers).1
      = peers.map (fun e =>
          (e.1, { e.2 with is_connected := e.2.is_connected && !(e.2.isTimeout now) })) ∧
    (∀ e ∈ (AIMLAB.handle_incoming_message now2 st msg).peers,
      e.1 = AIMLAB.peerId msg.sender_ip msg.sender_port →
        e.2.last_heartbeat = now2) :=
  ⟨rfl, AIMLAB.heartbeat_sweep_spec now peers,
   AIMLAB.handle_incoming_message_refreshes now2 st msg hty⟩

/-- C5 witness: at `now = 20000` a connected peer last seen at 0 is
evicted while one refreshed at 10000 survives, and a heartbeat from a
known peer refreshes its `last_heartbeat`. -/
theorem C5_liveness_witness :
    (⟨AIMLAB.HEARTBEAT, "", "10.0.0.1", 1⟩ : AIMLAB.Message).type
      ≠ AIMLAB.DISCONNECT ∧
    (AIMLAB.heartbeat_sweep 20000
        [("a", ⟨"10.0.0.1", 1, 0, true⟩), ("b", ⟨"10.0.0.2", 2, 10000, true⟩)]).1
      = ([("a", ⟨"10.0.0.1", 1, 0, true⟩),
          ("b", ⟨"10.0.0.2", 2, 10000, true⟩)]
            : List (String × AIMLAB.PeerInfo)).map (fun e =>
          (e.1, { e.2 with is_connected := e.2.is_connected && !(e.2.isTimeout 20000) })) ∧
    (∀ e ∈ (AIMLAB.handle_incoming_message 20000
        ⟨[("10.0.0.1:1", ⟨"10.0.0.1", 1, 0, true⟩)], [], []⟩
        ⟨AIMLAB.HEARTBEAT, "", "10.0.0.1", 1⟩).peers,
      e.1 = AIMLAB.peerId "10.0.0.1" 1 → e.2.last_heartbeat = 20000) :=
  ⟨by decide,
   (C5_liveness_sweep 20000
     [("a", ⟨"10.0.0.1", 1, 0, true⟩), ("b", ⟨"10.0.0.2", 2, 10000, true⟩)]
     20000 ⟨[("10.0.0.1:1", ⟨"10.0.0.1", 1, 0, true⟩)], [], []⟩
     ⟨AIMLAB.HEARTBEAT, "", "10.0.0.1", 1⟩ (by decide)).2.1,
   (C5_liveness_sweep 20000
     [("a", ⟨"10.0.0.1", 1, 0, true⟩), ("b", ⟨"10.0.0.2", 2, 10000, true⟩)]
     20000 ⟨[("10.0.0.1:1", ⟨"10.0.0.1", 1, 0, true⟩)], [], []⟩
     ⟨AIMLAB.HEARTBEAT, "", "10.0.0.1", 1⟩ (by decide)).2.2⟩

/-- C6 (amended): the minimal-test discovery loop ignores every discovery
datagram whose sender role id field is not the expected peer id `NODE1` —
in particular this node's own looped-back broadcasts, which carry its own
id `NODE2`: no peer record is created or modified and no acknowledgment is
sent.  (The `NetworkManager` variant filters only on the shared
`AIMLAB_VR` app identifier and does accept its own broadcast; see the
counterexample.) -/
theorem C6_discovery_role_filter (st : UdpChat.DiscState)
    (senderIp received : String)
    (h : UdpChat.msgField received 1 ≠ UdpChat.PEER_ID) :
    UdpChat.discStep st senderIp received = (st, []) :=
  UdpChat.discStep_filters st senderIp received h

/-- C6 witness: node 2's own looped-back broadcast
`DISCOVER:NODE2:50003` is ignored — no state change, nothing sent. -/
theorem C6_discovery_witness :
    UdpChat.msgField "DISCOVER:NODE2:50003" 1 ≠ UdpChat.PEER_ID ∧
    UdpChat.discStep ⟨false, "", 0⟩ "192.168.1.9" "DISCOVER:NODE2:50003"
      = (⟨false, "", 0⟩, []) :=
  ⟨by decide,
   C6_discovery_role_filter ⟨false, "", 0⟩ "192.168.1.9" "DISCOVER:NODE2:50003"
     (by decide)⟩

/-- C6 counterexample: `NetworkManager::handle_discovery_message` receives
this node's own broadcast datagram (`discovery_broadcast` is exactly what
its `discovery_worker` sends) looped back from its own address, and it
creates a peer record, sends an ACK on the discovery socket, and queues a
`HANDSHAKE_START` — the Discovery Service does create a peer record from
its own looped-back broadcast. -/
theorem C6_self_broadcast_counterexample :
    ((AIMLAB.handle_discovery_message 0 45001 ⟨[], [], []⟩
        (AIMLAB.discovery_broadcast 45001) "192.168.1.7").1.peers.length = 1) ∧
    ((AIMLAB.handle_discovery_message 0 45001 ⟨[], [], []⟩
        (AIMLAB.discovery_broadcast 45001) "192.168.1.7").2.length = 1) ∧
    ((AIMLAB.handle_discovery_message 0 45001 ⟨[], [], []⟩
        (AIMLAB.discovery_broadcast 45001) "192.168.1.7").1.outgoing_messages.map
          (fun m => m.type) = [AIMLAB.HANDSHAKE_START]) :=
  ⟨rfl, rfl, rfl⟩

/-- C7: after a successful send the scheduler advances the deadline by
exactly one period; if the current time is still before that deadline it
sleeps until it, and on overrun it resets the deadline to the current
time (no catch-up burst); consequently, starting from the code's
initialization `nextFrameTime = now`, after any number of ticks the
deadline is never in the past at the start of a tick. -/
theorem C7_tick_deadline (nextFrameTime now period start : Nat)
    (δs : List Nat) (k : Nat) :
    (now < nextFrameTime + period →
      AimlabVR.streamTick nextFrameTime now period
        = (nextFrameTime + period, nextFrameTime + period)) ∧
    (nextFrameTime + period ≤ now →
      AimlabVR.streamTick nextFrameTime now period = (now, now)) ∧
    (AimlabVR.streamRun period start start (δs.take k)).2
      ≤ (AimlabVR.streamRun period start start (δs.take k)).1 :=
  ⟨(AimlabVR.streamTick_spec nextFrameTime now period).1,
   (AimlabVR.streamTick_spec nextFrameTime now period).2.1,
   AimlabVR.streamRun_deadline_invariant period (δs.take k) start start le_rfl⟩

/-- C7 witness: an on-time tick sleeps until the advanced deadline, and an
overrunning tick resets the deadline to the current time. -/
theorem C7_tick_witness :
    ((5 : Nat) < 0 + 10 ∧ AimlabVR.streamTick 0 5 10 = (10, 10)) ∧
    ((0 : Nat) + 10 ≤ 25 ∧ AimlabVR.streamTick 0 25 10 = (25, 25)) :=
  ⟨⟨by decide, (C7_tick_deadline 0 5 10 0 [] 0).1 (by decide)⟩,
   ⟨by decide, (C7_tick_deadline 0 25 10 0 [] 0).2.1 (by decide)⟩⟩

/-- C8: a transport send failure during streaming reports through the
error callback (the model is a total function — no exceptions exist),
leaves `totalPacketsSent` unchanged, does not invoke the data-sent
callback, and the streaming loop proceeds to its next iteration with
`isStreaming`/`shouldStop` untouched. -/
theorem C8_send_failure_resilient (st : AimlabVR.StreamerState)
    (t : AimlabVR.TickInput)
    (hv : st.hasVrDevice = true) (hn : st.hasNetworkManager = true)
    (hu : t.updateOk = true) (hs : t.sendOk = false)
    (he : st.errorCallbackSet = true) (hstop : st.shouldStop = false) :
    (AimlabVR.sendFrame st t).1 = false ∧
    (AimlabVR.sendFrame st t).2.2.errorCallbackInvoked = true ∧
    (AimlabVR.sendFrame st t).2.2.sentCallbackInvoked = false ∧
    (AimlabVR.sendFrame st t).2.1.totalPacketsSent = st.totalPacketsSent ∧
    (AimlabVR.sendFrame st t).2.1.isStreaming = st.isStreaming ∧
    (AimlabVR.sendFrame st t).2.1.shouldStop = false ∧
    AimlabVR.streamingThreadStep st t = ((AimlabVR.sendFrame st t).2.1, true) :=
  AimlabVR.sendFrame_failure st t hv hn hu hs he hstop

/-- C8 witness: a concrete failing send fires the error callback, keeps
the counter, and the loop keeps running. -/
theorem C8_send_failure_witness :
    (⟨true, false, 5, 9, true, true, true, true, true⟩
        : AimlabVR.StreamerState).errorCallbackSet = true ∧
    (AimlabVR.sendFrame ⟨true, false, 5, 9, true, true, true, true, true⟩
      ⟨true, false, 42⟩).1 = false ∧
    (AimlabVR.sendFrame ⟨true, false, 5, 9, true, true, true, true, true⟩
      ⟨true, false, 42⟩).2.2.errorCallbackInvoked = true ∧
    (AimlabVR.sendFrame ⟨true, false, 5, 9, true, true, true, true, true⟩
      ⟨true, false, 42⟩).2.1.totalPacketsSent = 5 :=
  ⟨by decide,
   (C8_send_failure_resilient ⟨true, false, 5, 9, true, true, true, true, true⟩
     ⟨true, false, 42⟩ (by decide) (by decide) (by decide) (by decide)
     (by decide) (by decide)).1,
   (C8_send_failure_resilient ⟨true, false, 5, 9, true, true, true, true, true⟩
     ⟨true, false, 42⟩ (by decide) (by decide) (by decide) (by decide)
     (by decide) (by decide)).2.1,
   (C8_send_failure_resilient ⟨true, false, 5, 9, true, true, true, true, true⟩
     ⟨true, false, 42⟩ (by decide) (by decide) (by decide) (by decide)
     (by decide) (by decide)).2.2.2.1⟩

/-- C9: `processCommand` answers every command: a sub-opcode outside
`OPEN_FILE`/`CLOSE_FILE`/`GET_STATUS`/`SHUTDOWN` yields the
`STATUS:UNKNOWN_COMMAND` reply with the state untouched (never a silent
drop), every command yields a `STATUS`-prefixed reply, and the known
sub-opcodes dispatch to their handlers (`CLOSE_FILE` closes the file,
`SHUTDOWN` clears `running`, `GET_STATUS` reports without state change). -/
theorem C9_command_dispatch (genName : String) (fsOk : Bool)
    (st : AimlabDS.CmdState) (command : String) :
    (AimlabDS.cmdOpcode command
        ∉ (["OPEN_FILE", "CLOSE_FILE", "GET_STATUS", "SHUTDOWN"] : List String) →
      AimlabDS.processCommand genName fsOk st command
        = ("STATUS" ++ ":UNKNOWN_COMMAND", st)) ∧
    (∃ t, (AimlabDS.processCommand genName fsOk st command).1 = "STATUS" ++ t) ∧
    (AimlabDS.cmdOpcode command = "CLOSE_FILE" →
      AimlabDS.processCommand genName fsOk st command
        = ("STATUS" ++ ":FILE_CLOSED", AimlabDS.closeDataFile st) ∧
      (AimlabDS.processCommand genName fsOk st command).2.file_open = false) ∧
    (AimlabDS.cmdOpcode command = "SHUTDOWN" →
      (AimlabDS.processCommand genName fsOk st command).2.running = false) ∧
    (AimlabDS.cmdOpcode command = "GET_STATUS" →
      AimlabDS.processCommand genName fsOk st command
        = (AimlabDS.statusRunningReply st, st)) :=
  AimlabDS.processCommand_spec genName fsOk st command

/-- C9 witness: the unknown command `FROBNICATE:1` receives the
`STATUS:UNKNOWN_COMMAND` reply and changes nothing. -/
theorem C9_command_witness :
    AimlabDS.cmdOpcode "FROBNICATE:1"
      ∉ (["OPEN_FILE", "CLOSE_FILE", "GET_STATUS", "SHUTDOWN"] : List String) ∧
    AimlabDS.processCommand "gen.csv" true ⟨false, "", 0, 0, true⟩ "FROBNICATE:1"
      = ("STATUS" ++ ":UNKNOWN_COMMAND", ⟨false, "", 0, 0, true⟩) :=
  ⟨by decide,
   (C9_command_dispatch "gen.csv" true ⟨false, "", 0, 0, true⟩ "FROBNICATE:1").1
     (by decide)⟩

/-- C10 (amended): JSON-format deserialization returns `false` for every
buffer; for every non-empty buffer it also clears the device list — the
empty buffer is rejected by the empty-input check before the JSON path
and leaves the device list untouched — and the JSON serializer always
yields non-empty output, so a JSON round trip never succeeds. -/
theorem C10_json_decode_fails (p q : AimlabVR.DataPacket) (data : List Nat)
    (fpr : Nat → String) :
    (AimlabVR.deserialize AimlabVR.PacketFormat.JSON p data).1 = false ∧
    (data ≠ [] →
      (AimlabVR.deserialize AimlabVR.PacketFormat.JSON p data).2.devices = []) ∧
    AimlabVR.serializeJSON fpr q ≠ [] ∧
    AimlabVR.deserialize AimlabVR.PacketFormat.JSON p (AimlabVR.serializeJSON fpr q)
      = (false, { p with devices := [] }) :=
  AimlabVR.deserializeJSON_always_fails p q data fpr

/-- C10 witness: a concrete non-empty buffer fails JSON decoding with the
device list cleared. -/
theorem C10_json_witness :
    (([9] : List Nat) ≠ []) ∧
    (AimlabVR.deserialize AimlabVR.PacketFormat.JSON
      ⟨3, 4, [⟨1, 1, 1, true, 2, 2, 2, 2, 2, 2, 2, 3, false, true, 4, 5⟩]⟩
      [9]).2.devices = [] :=
  ⟨by decide,
   (C10_json_decode_fails
     ⟨3, 4, [⟨1, 1, 1, true, 2, 2, 2, 2, 2, 2, 2, 3, false, true, 4, 5⟩]⟩
     ⟨0, 0, []⟩ [9] (fun _ => "")).2.1 (by decide)⟩

/-- C10 counterexample: the claim quantifies over every input buffer, but
for the empty buffer `DataPacket::deserialize` returns `false` before
reaching the JSON path, leaving a non-empty device list uncleared. -/
theorem C10_empty_buffer_counterexample :
    AimlabVR.deserialize AimlabVR.PacketFormat.JSON
      ⟨3, 4, [⟨1, 1, 1, true, 2, 2, 2, 2, 2, 2, 2, 3, false, true, 4, 5⟩]⟩ []
      = (false, ⟨3, 4, [⟨1, 1, 1, true, 2, 2, 2, 2, 2, 2, 2, 3, false, true, 4, 5⟩]⟩) ∧
    (⟨3, 4, [⟨1, 1, 1, true, 2, 2, 2, 2, 2, 2, 2, 3, false, true, 4, 5⟩]⟩
        : AimlabVR.DataPacket).devices ≠ [] :=
  ⟨rfl, by decide⟩
